import Mathlib

/-!
Shallow embedding of `src/app.py` (an SVG-to-STL web converter).

The program's pure logic (guard conditions, message construction, path
construction) is translated directly; its interactions with the outside
world (filesystem probes, XML parsing, the OpenSCAD subprocess, uuid
generation, `werkzeug.secure_filename`) are supplied by explicit
environment records, so each Python function becomes a total Lean
function from its arguments and environment to an outcome record that
also logs the side effects the claims talk about (descriptor written,
subprocess launched, files remaining on disk).
-/

/-- Index of the last occurrence of a character in a list (Python `str.rfind`
restricted to the found case; `none` models `rfind` returning `-1`). -/
def lastIdx (c : Char) : List Char → Option Nat
  | [] => none
  | a :: t =>
    match lastIdx c t with
    | some i => some (i + 1)
    | none => if a = c then some 0 else none

/-- Drop trailing occurrences of a character (Python `str.rstrip(c)`). -/
def dropTrailing (c : Char) (l : List Char) : List Char :=
  (l.reverse.dropWhile (fun ch => ch == c)).reverse

/-- Substring test on character lists (Python `needle in hay`). -/
def listHasSub (needle : List Char) : List Char → Bool
  | [] => needle.isPrefixOf []
  | c :: t => needle.isPrefixOf (c :: t) || listHasSub needle t

/-- Python `str.lower()`, character-wise (the filenames and tags involved
are ASCII, where this agrees with Python). -/
def str_lower (s : String) : String := ⟨s.data.map Char.toLower⟩

/-- The characters after the last occurrence of `c`
(Python `s.rsplit(c, 1)[1]` when `c` occurs in `s`; `s` itself otherwise). -/
def afterLast (c : Char) (s : String) : String :=
  ⟨(s.data.reverse.takeWhile (fun ch => ch != c)).reverse⟩

/-- Python `os.path.basename`: everything after the last slash. -/
def os_path_basename (s : String) : String :=
  ⟨(s.data.reverse.takeWhile (fun ch => ch != '/')).reverse⟩

/-- Python `os.path.dirname` (posixpath): the text up to the last slash,
with trailing slashes stripped unless the head is all slashes. -/
def os_path_dirname (s : String) : String :=
  match lastIdx '/' s.data with
  | none => ""
  | some i =>
    let head := s.data.take (i + 1)
    if head.all (fun ch => ch == '/') then ⟨head⟩ else ⟨dropTrailing '/' head⟩

/-- Python `os.path.join` (posixpath) for two components. -/
def os_path_join (a b : String) : String :=
  if b.data.head? = some '/' then b
  else if a = "" ∨ a.data.getLast? = some '/' then a ++ b
  else a ++ "/" ++ b

/-- Python `os.path.splitext(s)[0]` (posixpath): cut at the last dot of the
final path component, unless every character between the component start and
that dot is itself a dot (hidden-file rule). -/
def os_path_splitext_fst (s : String) : String :=
  match lastIdx '.' s.data with
  | none => s
  | some d =>
    let sepi : Nat :=
      match lastIdx '/' s.data with
      | none => 0
      | some i => i + 1
    if ((s.data.drop sepi).take (d - sepi)).any (fun ch => ch != '.') then
      ⟨s.data.take d⟩
    else s

/-- The candidate executable locations probed by `find_openscad`
(app.py lines 20-27). -/
def possible_paths : List String :=
  ["openscad",
   "/usr/bin/openscad",
   "/usr/local/bin/openscad",
   "/Applications/OpenSCAD.app/Contents/MacOS/OpenSCAD",
   "C:\\Program Files\\OpenSCAD\\openscad.exe",
   "C:\\Program Files (x86)\\OpenSCAD\\openscad.exe"]

/-- Outcome of probing one candidate with `subprocess.run([path, "--version"])`:
`some rc` means the probe completed with return code `rc`; `none` means it
raised (not found / timeout), which the bare `except` swallows. -/
def ProbeOracle : Type := String → Option Int

/-- app.py `find_openscad` (lines 18-36): return the first candidate whose
version probe completes with return code 0, else `none`. -/
def find_openscad (probe : ProbeOracle) : Option String :=
  possible_paths.findSome? fun path =>
    match probe path with
    | some rc => if rc = 0 then some path else none
    | none => none

/-- Outcome of `xml.etree.ElementTree.parse` on the uploaded document:
either the root element's tag, or the exception text `str(e)`. -/
inductive ParseOutcome where
  | ok (rootTag : String)
  | err (msg : String)
deriving DecidableEq

/-- app.py `validate_svg` (lines 38-48): well-formed XML whose root tag
contains `"svg"` case-insensitively passes; anything else fails with a
human-readable reason, exceptions included. -/
def validate_svg (parse : ParseOutcome) : Bool × String :=
  match parse with
  | .ok rootTag =>
    if listHasSub "svg".data (str_lower rootTag).data then (true, "Valid SVG")
    else (false, "File is not a valid SVG")
  | .err msg => (false, "Invalid SVG file: " ++ msg)

/-- The generated OpenSCAD script of app.py `create_openscad_file`
(lines 50-59), modelled by its parameters: the script text is the fixed
template `linear_extrude(height = H, center = false, convexity = 10)
import(BASENAME, center = true)` and carries no other information. -/
structure ScadScript where
  importFile : String
  height : ℚ
  extrudeCenter : Bool
  convexity : ℕ
  importCenter : Bool
deriving DecidableEq

/-- app.py `create_openscad_file` (lines 50-59). -/
def create_openscad_file (svg_path : String) (extrude_height : ℚ) : ScadScript :=
  { importFile := os_path_basename svg_path
    height := extrude_height
    extrudeCenter := false
    convexity := 10
    importCenter := true }

/-- Outcome of the `subprocess.run` call on the OpenSCAD command (app.py
lines 94-100): completed with return code and captured streams, raised
`subprocess.TimeoutExpired`, or raised some other exception with text
`str(e)`. -/
inductive RunOutcome where
  | completed (returncode : Int) (stdoutText stderrText : String)
  | timedOut
  | raised (msg : String)
deriving DecidableEq

/-- Environment of one `convert_svg_to_stl` call: the probe oracle for
`find_openscad`, the XML parse outcome for the document, the uuid drawn for
the descriptor filename, the subprocess outcome, and whether the output
file exists on disk after the subprocess step. -/
structure ConvEnv where
  probe : ProbeOracle
  parse : ParseOutcome
  scadUuid : String
  run : RunOutcome
  outputExists : Bool

/-- Result of `convert_svg_to_stl` together with the side effects the spec
talks about: whether `validate_svg` was called, the descriptor path and
content if the descriptor was written, whether the subprocess was launched,
and whether the descriptor file is still on disk when the function
returns. -/
structure ConvOutcome where
  success : Bool
  message : String
  validated : Bool
  scadPath : Option String
  descriptor : Option ScadScript
  ranProcess : Bool
  outputArg : Option String
  scadExistsAfter : Bool
deriving DecidableEq

/-- app.py `convert_svg_to_stl` (lines 61-115). Mirrors the source: resolve
the tool, validate, write the descriptor `temp_<uuid>.scad` next to the
document, run OpenSCAD with a 60s timeout, delete the descriptor after a
normal subprocess return (the `TimeoutExpired` and generic `except` paths
return without reaching the deletion), and report success exactly when the
return code is 0 and the output file exists; otherwise report the captured
stderr, or stdout when stderr is empty. -/
def convert_svg_to_stl (svg_path output_path : String) (extrude_height : ℚ)
    (env : ConvEnv) : ConvOutcome :=
  match find_openscad env.probe with
  | none =>
    { success := false
      message := "OpenSCAD not found. Please install OpenSCAD."
      validated := false, scadPath := none, descriptor := none
      ranProcess := false, outputArg := none, scadExistsAfter := false }
  | some _openscad_path =>
    let v := validate_svg env.parse
    if v.1 = false then
      { success := false, message := v.2
        validated := true, scadPath := none, descriptor := none
        ranProcess := false, outputArg := none, scadExistsAfter := false }
    else
      let temp_dir := os_path_dirname svg_path
      let scad_filename := "temp_" ++ env.scadUuid ++ ".scad"
      let scad_path := os_path_join temp_dir scad_filename
      let scad_content := create_openscad_file svg_path extrude_height
      match env.run with
      | .completed rc out err =>
        if rc = 0 ∧ env.outputExists = true then
          { success := true, message := "Success"
            validated := true, scadPath := some scad_path
            descriptor := some scad_content
            ranProcess := true, outputArg := some output_path
            scadExistsAfter := false }
        else
          let error_msg := if err = "" then out else err
          { success := false, message := "OpenSCAD error: " ++ error_msg
            validated := true, scadPath := some scad_path
            descriptor := some scad_content
            ranProcess := true, outputArg := some output_path
            scadExistsAfter := false }
      | .timedOut =>
        { success := false
          message := "Conversion timed out. File may be too complex."
          validated := true, scadPath := some scad_path
          descriptor := some scad_content
          ranProcess := true, outputArg := some output_path
          scadExistsAfter := true }
      | .raised m =>
        { success := false, message := "Conversion error: " ++ m
          validated := true, scadPath := some scad_path
          descriptor := some scad_content
          ranProcess := true, outputArg := some output_path
          scadExistsAfter := true }

/-- The shared scratch directory (app.py line 14; `/tmp` exists on the
deployment platforms the comment names). -/
def UPLOAD_FOLDER : String := "/tmp/uploads"

/-- app.py line 142. -/
def allowed_extensions : List String := ["svg"]

/-- The extension guard of app.py line 143:
`'.' in filename and filename.rsplit('.', 1)[1].lower() in allowed_extensions`. -/
def extension_ok (filename : String) : Bool :=
  filename.data.contains '.' &&
    allowed_extensions.contains (str_lower (afterLast '.' filename))

/-- The request data `upload_file` reads: whether a `file` part is present,
its declared filename, and the remaining form fields (which the handler
never reads). -/
structure UploadReq where
  hasFilePart : Bool
  filename : String
  form : List (String × String)

/-- Environment of one `upload_file` call. `sanitize` models the external
`werkzeug.utils.secure_filename`; `uploadUuid` the uuid drawn at line 152;
`saveExc = some m` means `file.save` raised an exception with text `m`
(caught by the handler's `except Exception`), and `savedDespiteExc` records
whether a (possibly partial) file exists at the upload path even though
`save` raised — `FileStorage.save` opens the destination before copying, so
a mid-copy failure leaves a partial file behind. -/
structure UploadEnv where
  sanitize : String → String
  uploadUuid : String
  saveExc : Option String
  savedDespiteExc : Bool
  conv : ConvEnv

/-- The HTTP-level result of `upload_file`: a flash-message redirect to the
form, or a `send_file` response. -/
inductive HttpResult where
  | redirected (flashMsg : String)
  | fileResponse (path downloadName mimetype : String)
deriving DecidableEq

/-- Result of `upload_file` with the side effects the claims talk about:
the `convert_svg_to_stl` call (arguments), its outcome, the generated
upload/output paths, and whether the uploaded document is still on disk
when the handler returns. -/
structure UploadOutcome where
  result : HttpResult
  convertCall : Option (String × String × ℚ)
  convOutcome : Option ConvOutcome
  uploadPath : Option String
  stlPath : Option String
  uploadExistsAfter : Bool

/-- app.py `upload_file` (lines 130-181). Mirrors the source: the three
guard rejections, then the `try` block — sanitize the filename, build
`<uuid>_<filename>` under the scratch directory, save (an exception here
jumps to the `except Exception` handler, which flashes
`Upload failed: str(e)` and deletes nothing), derive the output path from
the stem, convert with height 5.0, delete the uploaded file, and either
stream the output or flash the failure message. -/
def upload_file (req : UploadReq) (env : UploadEnv) : UploadOutcome :=
  if req.hasFilePart = false then
    { result := .redirected "No file selected"
      convertCall := none, convOutcome := none
      uploadPath := none, stlPath := none, uploadExistsAfter := false }
  else if req.filename = "" then
    { result := .redirected "No file selected"
      convertCall := none, convOutcome := none
      uploadPath := none, stlPath := none, uploadExistsAfter := false }
  else if extension_ok req.filename = false then
    { result := .redirected "Invalid file type. Please upload an SVG file."
      convertCall := none, convOutcome := none
      uploadPath := none, stlPath := none, uploadExistsAfter := false }
  else
    let extrude_height : ℚ := 5
    let filename := env.sanitize req.filename
    let unique_filename := env.uploadUuid ++ "_" ++ filename
    let upload_path := os_path_join UPLOAD_FOLDER unique_filename
    match env.saveExc with
    | some m =>
      { result := .redirected ("Upload failed: " ++ m)
        convertCall := none, convOutcome := none
        uploadPath := some upload_path, stlPath := none
        uploadExistsAfter := env.savedDespiteExc }
    | none =>
      let stl_filename := os_path_splitext_fst unique_filename ++ ".stl"
      let stl_path := os_path_join UPLOAD_FOLDER stl_filename
      let conv := convert_svg_to_stl upload_path stl_path extrude_height env.conv
      if conv.success && env.conv.outputExists then
        { result := .fileResponse stl_path
            (os_path_splitext_fst filename ++ ".stl") "application/sla"
          convertCall := some (upload_path, stl_path, extrude_height)
          convOutcome := some conv
          uploadPath := some upload_path, stlPath := some stl_path
          uploadExistsAfter := false }
      else
        { result := .redirected ("Conversion failed: " ++ conv.message)
          convertCall := some (upload_path, stl_path, extrude_height)
          convOutcome := some conv
          uploadPath := some upload_path, stlPath := some stl_path
          uploadExistsAfter := false }

/-- The paths a request generated, for collision statements: the uploaded
document's path, the output path, and the descriptor path (each present
only when that file was actually created). -/
def generatedPaths (o : UploadOutcome) : List String :=
  o.uploadPath.toList ++ o.stlPath.toList ++
    (o.convOutcome.bind ConvOutcome.scadPath).toList

/-- The character alphabet of `str(uuid.uuid4())`: lowercase hex digits and
the dash. -/
def uuidChars : List Char := "0123456789abcdef-".data

/-- A string of the shape `str(uuid.uuid4())` produces: 36 characters, all
lowercase hex or dash. -/
def IsUuidStr (u : String) : Prop :=
  u.data.length = 36 ∧ ∀ c ∈ u.data, c ∈ uuidChars

instance : DecidablePred IsUuidStr := fun u => by
  unfold IsUuidStr; infer_instance

/-- A probe oracle under which the first candidate, `openscad`, answers the
version check with exit code 0. -/
def probe0 : ProbeOracle := fun path => if path = "openscad" then some 0 else none

/-- A probe oracle under which every candidate raises (tool absent). -/
def probeNone : ProbeOracle := fun _ => none

/-- A concrete uuid4-shaped identifier. -/
def uuidA : String := "00000000-0000-4000-8000-000000000000"

/-- A second concrete uuid4-shaped identifier. -/
def uuidB : String := "11111111-1111-4111-9111-111111111111"

/-- A third concrete uuid4-shaped identifier. -/
def uuidC : String := "22222222-2222-4222-8222-222222222222"

/-- A fourth concrete uuid4-shaped identifier. -/
def uuidD : String := "33333333-3333-4333-9333-333333333333"

/-- A conversion environment in which the tool resolves, the document is a
valid SVG, and the subprocess exceeds its 60-second timeout. -/
def envTimeout : ConvEnv :=
  { probe := probe0, parse := .ok "svg", scadUuid := uuidA
    run := .timedOut, outputExists := false }

/-- A conversion environment in which the tool resolves, the document is a
valid SVG, and the subprocess completes with exit code 1, diagnostics on
stdout and an empty stderr, producing no output file. -/
def envFailRun : ConvEnv :=
  { probe := probe0, parse := .ok "svg", scadUuid := uuidA
    run := .completed 1 "boom" "", outputExists := false }

/-- A well-formed upload request for `logo.svg`. -/
def reqOk : UploadReq := { hasFilePart := true, filename := "logo.svg", form := [] }

/-- An upload request whose filename has a non-svg extension. -/
def reqBad : UploadReq := { hasFilePart := true, filename := "evil.exe", form := [] }

/-- An upload environment in which `file.save` raises an exception whose
text is "secret internal detail". -/
def envLeak : UploadEnv :=
  { sanitize := fun s => s, uploadUuid := uuidA
    saveExc := some "secret internal detail", savedDespiteExc := false
    conv := envTimeout }

/-- An upload environment in which `file.save` raises "disk full" after the
destination file has already been created (partial write). -/
def envDiskFull : UploadEnv :=
  { sanitize := fun s => s, uploadUuid := uuidA
    saveExc := some "disk full", savedDespiteExc := true
    conv := envFailRun }

/-- An upload environment in which the save succeeds and the conversion
subprocess fails with exit code 1. -/
def envSaveOk : UploadEnv :=
  { sanitize := fun s => s, uploadUuid := uuidA
    saveExc := none, savedDespiteExc := false
    conv := envFailRun }

/-- A fully successful upload environment for a first concurrent request:
upload uuid `uuidA`, descriptor uuid `uuidB`. -/
def envReqA : UploadEnv :=
  { sanitize := fun s => s, uploadUuid := uuidA
    saveExc := none, savedDespiteExc := false
    conv := { probe := probe0, parse := .ok "svg", scadUuid := uuidB
              run := .completed 0 "" "", outputExists := true } }

/-- A fully successful upload environment for a second concurrent request:
upload uuid `uuidC`, descriptor uuid `uuidD`. -/
def envReqB : UploadEnv :=
  { sanitize := fun s => s, uploadUuid := uuidC
    saveExc := none, savedDespiteExc := false
    conv := { probe := probe0, parse := .ok "svg", scadUuid := uuidD
              run := .completed 0 "" "", outputExists := true } }

lemma string_data_append (a b : String) : (a ++ b).data = a.data ++ b.data := rfl

lemma string_eq_of_data (a b : String) (h : a.data = b.data) : a = b := by
  cases a; cases b; simp_all

lemma string_ne_of_append_prefix {A B : String}
    (hnp : ¬ (B.data <+: A.data)) : ∀ d : String, A ≠ B ++ d := by
  intro d h
  exact hnp ⟨d.data, by rw [← string_data_append, ← h]⟩

/-- C5: `validate_svg` passes exactly when the document parsed and its root
tag contains "svg" case-insensitively; a parse failure yields a failure
verdict carrying a human-readable reason instead of an exception. -/
theorem claim_C5 :
    (∀ pr : ParseOutcome,
      ((validate_svg pr).1 = true ↔
        ∃ tag, pr = ParseOutcome.ok tag ∧
          listHasSub "svg".data (str_lower tag).data = true)) ∧
    (∀ m, validate_svg (ParseOutcome.err m) =
      (false, "Invalid SVG file: " ++ m)) := by
  constructor
  · intro pr
    cases pr with
    | ok tag =>
      by_cases h : listHasSub "svg".data (str_lower tag).data = true
      · simp [validate_svg, h]
      · simp [validate_svg, h]
    | err m => simp [validate_svg]
  · intro m
    rfl

/-- C1: once the subprocess step completes, `convert_svg_to_stl` succeeds
exactly when the exit code is zero and the output file exists; when either
condition fails, the message is the captured stderr, falling back to stdout
when stderr is empty. -/
theorem claim_C1 (svg_path output_path : String) (extrude_height : ℚ)
    (env : ConvEnv) (p : String) (rc : Int) (out err : String)
    (hfound : find_openscad env.probe = some p)
    (hvalid : (validate_svg env.parse).1 = true)
    (hrun : env.run = RunOutcome.completed rc out err) :
    ((convert_svg_to_stl svg_path output_path extrude_height env).success = true
      ↔ rc = 0 ∧ env.outputExists = true) ∧
    (¬(rc = 0 ∧ env.outputExists = true) →
      (convert_svg_to_stl svg_path output_path extrude_height env).message =
        "OpenSCAD error: " ++ (if err = "" then out else err)) := by
  by_cases hc : rc = 0 ∧ env.outputExists = true
  · constructor
    · simp [convert_svg_to_stl, hfound, hvalid, hrun, hc]
    · intro hn; exact absurd hc hn
  · constructor
    · simp [convert_svg_to_stl, hfound, hvalid, hrun, hc]
    · intro _
      simp [convert_svg_to_stl, hfound, hvalid, hrun, hc]

/-- C1 witness: a concrete completed run with exit code 1, empty stderr and
stdout "boom" fails and reports the stdout text. -/
theorem claim_C1_witness :
    (((convert_svg_to_stl "/tmp/uploads/a.svg" "/tmp/uploads/a.stl" 5
        envFailRun).success = true ↔ (1 : Int) = 0 ∧ envFailRun.outputExists = true) ∧
    (¬((1 : Int) = 0 ∧ envFailRun.outputExists = true) →
      (convert_svg_to_stl "/tmp/uploads/a.svg" "/tmp/uploads/a.stl" 5
        envFailRun).message =
        "OpenSCAD error: " ++ (if ("" : String) = "" then "boom" else ""))) :=
  claim_C1 "/tmp/uploads/a.svg" "/tmp/uploads/a.stl" 5 envFailRun
    "openscad" 1 "boom" "" (by decide) (by decide) rfl

/-- C6: `convert_svg_to_stl` checks in order — unresolved tool fails with
the tool-not-found message before validation runs, and an invalid document
fails with the validator's reason; in both cases no descriptor is written
and no subprocess is launched. -/
theorem claim_C6 (svg_path output_path : String) (extrude_height : ℚ)
    (env : ConvEnv) :
    (find_openscad env.probe = none →
      convert_svg_to_stl svg_path output_path extrude_height env =
        { success := false
          message := "OpenSCAD not found. Please install OpenSCAD."
          validated := false, scadPath := none, descriptor := none
          ranProcess := false, outputArg := none, scadExistsAfter := false }) ∧
    ((∃ p, find_openscad env.probe = some p) →
      (validate_svg env.parse).1 = false →
      convert_svg_to_stl svg_path output_path extrude_height env =
        { success := false
          message := (validate_svg env.parse).2
          validated := true, scadPath := none, descriptor := none
          ranProcess := false, outputArg := none, scadExistsAfter := false }) := by
  constructor
  · intro h
    simp [convert_svg_to_stl, h]
  · rintro ⟨p, hp⟩ hv
    simp [convert_svg_to_stl, hp, hv]

/-- C6 witness: with every probe failing, conversion reports the tool
missing without validating, writing a descriptor, or running a subprocess;
with the tool present and an unparseable document, it reports the
validator's reason likewise. -/
theorem claim_C6_witness :
    (convert_svg_to_stl "/tmp/uploads/a.svg" "/tmp/uploads/a.stl" 5
        { probe := probeNone, parse := .ok "svg", scadUuid := uuidA
          run := .timedOut, outputExists := false } =
      { success := false
        message := "OpenSCAD not found. Please install OpenSCAD."
        validated := false, scadPath := none, descriptor := none
        ranProcess := false, outputArg := none, scadExistsAfter := false }) ∧
    (convert_svg_to_stl "/tmp/uploads/a.svg" "/tmp/uploads/a.stl" 5
        { probe := probe0, parse := .err "syntax error: line 1, column 0"
          scadUuid := uuidA, run := .timedOut, outputExists := false } =
      { success := false
        message := "Invalid SVG file: syntax error: line 1, column 0"
        validated := true, scadPath := none, descriptor := none
        ranProcess := false, outputArg := none, scadExistsAfter := false }) := by
  constructor
  · exact (claim_C6 _ _ 5 _).1 (by decide)
  · exact (claim_C6 _ _ 5 _).2 ⟨"openscad", by decide⟩ (by decide)

/-- C7: a timed-out subprocess yields the dedicated timeout message, which
differs from every tool-reported error message. -/
theorem claim_C7 (svg_path output_path : String) (extrude_height : ℚ)
    (env : ConvEnv) (p : String)
    (hfound : find_openscad env.probe = some p)
    (hvalid : (validate_svg env.parse).1 = true)
    (hrun : env.run = RunOutcome.timedOut) :
    (convert_svg_to_stl svg_path output_path extrude_height env).success = false ∧
    (convert_svg_to_stl svg_path output_path extrude_height env).message =
      "Conversion timed out. File may be too complex." ∧
    (∀ diag : String,
      (convert_svg_to_stl svg_path output_path extrude_height env).message ≠
        "OpenSCAD error: " ++ diag) := by
  refine ⟨?_, ?_, ?_⟩
  · simp [convert_svg_to_stl, hfound, hvalid, hrun]
  · simp [convert_svg_to_stl, hfound, hvalid, hrun]
  · intro diag
    have hmsg : (convert_svg_to_stl svg_path output_path extrude_height env).message =
        "Conversion timed out. File may be too complex." := by
      simp [convert_svg_to_stl, hfound, hvalid, hrun]
    rw [hmsg]
    exact string_ne_of_append_prefix (by decide) diag

/-- C7 witness: the concrete timeout environment produces the timeout
message, distinct from the tool-error shape. -/
theorem claim_C7_witness :
    (convert_svg_to_stl "/tmp/uploads/a.svg" "/tmp/uploads/a.stl" 5
        envTimeout).success = false ∧
    (convert_svg_to_stl "/tmp/uploads/a.svg" "/tmp/uploads/a.stl" 5
        envTimeout).message =
      "Conversion timed out. File may be too complex." ∧
    (∀ diag : String,
      (convert_svg_to_stl "/tmp/uploads/a.svg" "/tmp/uploads/a.stl" 5
          envTimeout).message ≠ "OpenSCAD error: " ++ diag) :=
  claim_C7 "/tmp/uploads/a.svg" "/tmp/uploads/a.stl" 5 envTimeout
    "openscad" (by decide) (by decide) rfl

/-- C2: at a concrete timed-out conversion the descriptor file was written
(`scadPath` is set) but is still on disk when the function returns — the
`TimeoutExpired` handler returns before the deletion at app.py lines
102-104, contradicting "delete the descriptor file regardless of
outcome". -/
theorem claim_C2_timeout_leak :
    (convert_svg_to_stl "/tmp/uploads/a.svg" "/tmp/uploads/a.stl" 5
        envTimeout).scadPath =
      some ("/tmp/uploads/temp_" ++ uuidA ++ ".scad") ∧
    (convert_svg_to_stl "/tmp/uploads/a.svg" "/tmp/uploads/a.stl" 5
        envTimeout).scadExistsAfter = true ∧
    (convert_svg_to_stl "/tmp/uploads/a.svg" "/tmp/uploads/a.stl" 5
        envFailRun).scadExistsAfter = false := by
  refine ⟨by decide, by decide, by decide⟩

/-- C3: at a concrete unexpected error (the save step raising an exception
whose text is "secret internal detail"), the handler's flash message shown
to the client embeds that exception text verbatim — the surfaced message is
not generic and leaks the internal detail. -/
theorem claim_C3_counterexample :
    (upload_file reqOk envLeak).result =
      HttpResult.redirected "Upload failed: secret internal detail" := by
  decide

/-- C3 (amended): an unexpected error raised inside the handler's try block
is caught — the handler returns a flash-message redirect rather than
crashing — but the message surfaced to the client is
`"Upload failed: " ++ str(e)`, embedding the exception's own text rather
than a generic message. -/
theorem claim_C3 (req : UploadReq) (env : UploadEnv) (m : String)
    (hpart : req.hasFilePart = true) (hname : req.filename ≠ "")
    (hext : extension_ok req.filename = true)
    (hexc : env.saveExc = some m) :
    (upload_file req env).result =
      HttpResult.redirected ("Upload failed: " ++ m) := by
  simp [upload_file, hpart, hname, hext, hexc]

/-- C3 witness: the amended statement at a concrete request and a concrete
failing save. -/
theorem claim_C3_witness :
    (upload_file reqOk envLeak).result =
      HttpResult.redirected ("Upload failed: " ++ "secret internal detail") :=
  claim_C3 reqOk envLeak "secret internal detail" rfl (by decide) (by decide) rfl

/-- C8: at a concrete run where `file.save` raises "disk full" after having
created the destination file, the handler's `except` path flashes the error
and returns with the uploaded document still on disk — an uploaded document
survives the request, contradicting deletion on every outcome path. -/
theorem claim_C8_counterexample :
    (upload_file reqOk envDiskFull).uploadExistsAfter = true ∧
    (upload_file reqOk envDiskFull).result =
      HttpResult.redirected "Upload failed: disk full" := by
  constructor
  · decide
  · decide

/-- C8 (amended): the uploaded document is deleted after the conversion
attempt on the success and conversion-failure paths (whenever the try block
runs to completion), but the unexpected-error handler performs no deletion,
so a document persisted before the exception is left exactly as the failed
save left it. -/
theorem claim_C8 (req : UploadReq) (env : UploadEnv) :
    (env.saveExc = none → (upload_file req env).uploadExistsAfter = false) ∧
    (∀ m, req.hasFilePart = true → req.filename ≠ "" →
      extension_ok req.filename = true → env.saveExc = some m →
      (upload_file req env).uploadExistsAfter = env.savedDespiteExc) := by
  constructor
  · intro h
    simp only [upload_file, h]
    split
    · rfl
    · split
      · rfl
      · split
        · rfl
        · split
          · rfl
          · rfl
  · intro m hpart hname hext hexc
    simp [upload_file, hpart, hname, hext, hexc]

/-- C8 witness: the amended statement evaluated at a concrete request, a
successful-save environment and a failing-save environment. -/
theorem claim_C8_witness :
    ((envSaveOk.saveExc = none →
      (upload_file reqOk envSaveOk).uploadExistsAfter = false) ∧
    (∀ m, reqOk.hasFilePart = true → reqOk.filename ≠ "" →
      extension_ok reqOk.filename = true → envSaveOk.saveExc = some m →
      (upload_file reqOk envSaveOk).uploadExistsAfter =
        envSaveOk.savedDespiteExc)) ∧
    (upload_file reqOk envDiskFull).uploadExistsAfter =
      envDiskFull.savedDespiteExc :=
  ⟨claim_C8 reqOk envSaveOk,
   (claim_C8 reqOk envDiskFull).2 "disk full" rfl (by decide) (by decide) rfl⟩

lemma extension_ok_iff (fn : String) :
    extension_ok fn = true ↔
      fn.data.contains '.' = true ∧
        str_lower (afterLast '.' fn) = "svg" := by
  unfold extension_ok allowed_extensions
  rw [Bool.and_eq_true]
  constructor
  · rintro ⟨h1, h2⟩
    exact ⟨h1, by simpa using h2⟩
  · rintro ⟨h1, h2⟩
    exact ⟨h1, by simpa using h2⟩

/-- C4: whenever the file part is absent, the filename is empty, or the
text after the filename's last dot does not lowercase to "svg" (so in
particular whenever the filename has no dot), `upload_file` answers with a
flash-message redirect and never calls the converter. -/
theorem claim_C4 (req : UploadReq) (env : UploadEnv)
    (h : req.hasFilePart = false ∨ req.filename = "" ∨
      ¬(req.filename.data.contains '.' = true ∧
        str_lower (afterLast '.' req.filename) = "svg")) :
    ((upload_file req env).convertCall = none ∧
      ((upload_file req env).result = HttpResult.redirected "No file selected" ∨
       (upload_file req env).result =
         HttpResult.redirected "Invalid file type. Please upload an SVG file.")) ∧
    (∀ fn : String, fn.data.contains '.' = false → extension_ok fn = false) := by
  constructor
  · by_cases h1 : req.hasFilePart = false
    · constructor
      · simp [upload_file, h1]
      · left; simp [upload_file, h1]
    · by_cases h2 : req.filename = ""
      · constructor
        · simp [upload_file, h1, h2]
        · left; simp [upload_file, h1, h2]
      · have h3 : extension_ok req.filename = false := by
          rcases h with h | h | h
          · exact absurd h h1
          · exact absurd h h2
          · cases hc : extension_ok req.filename
            · rfl
            · exact absurd ((extension_ok_iff _).1 hc) h
        constructor
        · simp [upload_file, h1, h2, h3]
        · right; simp [upload_file, h1, h2, h3]
  · intro fn hfn
    unfold extension_ok
    rw [hfn]
    rfl

/-- C4 witness: a present file part named `evil.exe` is rejected with the
invalid-type message and the converter is never invoked. -/
theorem claim_C4_witness :
    (((upload_file reqBad envSaveOk).convertCall = none ∧
      ((upload_file reqBad envSaveOk).result =
          HttpResult.redirected "No file selected" ∨
       (upload_file reqBad envSaveOk).result =
         HttpResult.redirected "Invalid file type. Please upload an SVG file.")) ∧
    (∀ fn : String, fn.data.contains '.' = false → extension_ok fn = false)) :=
  claim_C4 reqBad envSaveOk (Or.inr (Or.inr (by decide)))

lemma convert_descriptor_shape (a b : String) (q : ℚ) (e : ConvEnv) :
    (convert_svg_to_stl a b q e).descriptor = none ∨
    (convert_svg_to_stl a b q e).descriptor = some (create_openscad_file a q) := by
  unfold convert_svg_to_stl
  dsimp only
  repeat' split
  all_goals first
    | (left; rfl)
    | (right; rfl)

lemma upload_convertCall_shape (req : UploadReq) (env : UploadEnv) :
    ((upload_file req env).convertCall = none ∧
      (upload_file req env).convOutcome = none) ∨
    (∃ a b, (upload_file req env).convertCall = some (a, b, 5) ∧
      (upload_file req env).convOutcome =
        some (convert_svg_to_stl a b 5 env.conv)) := by
  unfold upload_file
  dsimp only
  repeat' split
  all_goals first
    | (left; exact ⟨rfl, rfl⟩)
    | (right; exact ⟨_, _, rfl, rfl⟩)

/-- C10: every `convert_svg_to_stl` call the handler makes passes the
extrusion height 5, whatever the request contains, and any descriptor
generated during that call carries height 5 — the height is not
configurable through the HTTP interface. -/
theorem claim_C10 (req : UploadReq) (env : UploadEnv) :
    (∀ call, (upload_file req env).convertCall = some call → call.2.2 = 5) ∧
    (∀ co d, (upload_file req env).convOutcome = some co →
      co.descriptor = some d → d.height = 5) := by
  rcases upload_convertCall_shape req env with ⟨hc, ho⟩ | ⟨a, b, hc, ho⟩
  · constructor
    · intro call hcall
      rw [hc] at hcall
      exact absurd hcall (by simp)
    · intro co d hco
      rw [ho] at hco
      exact absurd hco (by simp)
  · constructor
    · intro call hcall
      rw [hc] at hcall
      have : (a, b, (5 : ℚ)) = call := Option.some.inj hcall
      rw [← this]
    · intro co d hco hd
      rw [ho] at hco
      have hcoe : convert_svg_to_stl a b 5 env.conv = co := Option.some.inj hco
      rw [← hcoe] at hd
      rcases convert_descriptor_shape a b 5 env.conv with hsh | hsh
      · rw [hsh] at hd
        exact absurd hd (by simp)
      · rw [hsh] at hd
        have : create_openscad_file a 5 = d := Option.some.inj hd
        rw [← this]
        rfl

/-- C10 witness: at a concrete accepted request the converter is called
with height exactly 5. -/
theorem claim_C10_witness :
    ((∀ call, (upload_file reqOk envSaveOk).convertCall = some call →
      call.2.2 = 5) ∧
    (∀ co d, (upload_file reqOk envSaveOk).convOutcome = some co →
      co.descriptor = some d → d.height = 5)) ∧
    (upload_file reqOk envSaveOk).convertCall =
      some ("/tmp/uploads/" ++ uuidA ++ "_logo.svg",
        "/tmp/uploads/" ++ uuidA ++ "_logo.stl", 5) :=
  ⟨claim_C10 reqOk envSaveOk, by decide⟩

lemma lastIdx_append_of_none (c : Char) (xs ys : List Char)
    (h : lastIdx c ys = none) : lastIdx c (xs ++ ys) = lastIdx c xs := by
  induction xs with
  | nil => simpa using h
  | cons a t ih =>
    simp only [List.cons_append, lastIdx, List.append_eq, ih]

lemma lastIdx_eq_none_iff (c : Char) (l : List Char) :
    lastIdx c l = none ↔ c ∉ l := by
  induction l with
  | nil => simp [lastIdx]
  | cons a t ih =>
    constructor
    · intro h hm
      unfold lastIdx at h
      rcases ht : lastIdx c t with _ | i
      · rw [ht] at h
        rcases List.mem_cons.1 hm with hm | hm
        · simp [← hm] at h
        · exact (ih.1 ht) hm
      · rw [ht] at h
        simp at h
    · intro hm
      unfold lastIdx
      rw [ih.2 (fun hmem => hm (List.mem_cons_of_mem a hmem))]
      exact if_neg (fun hac => hm (by rw [← hac]; exact List.mem_cons_self a t))

lemma lastIdx_get (c : Char) (l : List Char) (i : Nat)
    (h : lastIdx c l = some i) : l.get? i = some c := by
  induction l generalizing i with
  | nil => simp [lastIdx] at h
  | cons a t ih =>
    unfold lastIdx at h
    rcases ht : lastIdx c t with _ | j
    · rw [ht] at h
      by_cases hac : a = c
      · rw [if_pos hac] at h
        have : i = 0 := by simpa using h.symm
        subst this
        simp [hac]
      · rw [if_neg hac] at h
        simp at h
    · rw [ht] at h
      have : i = j + 1 := by simpa using h.symm
      subst this
      simpa using ih j ht

lemma string_mk_data (l : List Char) : (String.mk l).data = l := rfl

lemma splitext_fst_shape (u : List Char) (fnl : List Char) (hu : '.' ∉ u) :
    ∃ r : List Char,
      os_path_splitext_fst ⟨u ++ '_' :: fnl⟩ = ⟨u ++ '_' :: r⟩ := by
  unfold os_path_splitext_fst
  simp only [string_mk_data]
  rcases h : lastIdx '.' (u ++ '_' :: fnl) with _ | d
  · exact ⟨fnl, rfl⟩
  · have hget : (u ++ '_' :: fnl).get? d = some '.' := lastIdx_get _ _ _ h
    have hd : u.length + 1 ≤ d := by
      by_contra hlt
      push_neg at hlt
      rcases Nat.lt_succ_iff_lt_or_eq.1 hlt with hcase | hcase
      · rw [List.get?_append hcase] at hget
        exact hu (List.get?_mem hget)
      · subst hcase
        rw [List.get?_append_right (Nat.le_refl _)] at hget
        simp at hget
    have htake : (u ++ '_' :: fnl).take d =
        u ++ '_' :: fnl.take (d - (u.length + 1)) := by
      rw [List.take_append_eq_append_take,
        List.take_of_length_le (by omega)]
      have h2 : d - u.length = (d - (u.length + 1)) + 1 := by omega
      rw [h2, List.take_succ_cons]
    dsimp only
    split
    · exact ⟨fnl.take (d - (u.length + 1)), congrArg String.mk htake⟩
    · exact ⟨fnl, rfl⟩

lemma uuid_no_dot {u : String} (hu : IsUuidStr u) : '.' ∉ u.data := by
  intro hmem
  have hc := hu.2 '.' hmem
  revert hc
  decide

lemma uuid_no_slash {u : String} (hu : IsUuidStr u) : '/' ∉ u.data := by
  intro hmem
  have hc := hu.2 '/' hmem
  revert hc
  decide

lemma uuid_data_cons {u : String} (hu : IsUuidStr u) :
    ∃ c t, u.data = c :: t ∧ c ∈ uuidChars := by
  rcases hl : u.data with _ | ⟨c, t⟩
  · have := hu.1
    rw [hl] at this
    simp at this
  · refine ⟨c, t, rfl, ?_⟩
    have : c ∈ u.data := by rw [hl]; exact List.mem_cons_self c t
    exact hu.2 c this

lemma append_ne_of_ne_of_length_eq {a b x y : List Char}
    (hl : a.length = b.length) (hne : a ≠ b) : a ++ x ≠ b ++ y :=
  fun h => hne (List.append_inj h hl).1

lemma uuid_append_ne_t_cons {u : String} (hu : IsUuidStr u)
    (x y : List Char) : u.data ++ x ≠ 't' :: y := by
  rcases uuid_data_cons hu with ⟨c, t, hdata, hc⟩
  rw [hdata, List.cons_append]
  intro h
  have hct : c = 't' := (List.cons_eq_cons.1 h).1
  rw [hct] at hc
  revert hc
  decide

lemma data_ne_of_string_ne {a b : String} (h : a ≠ b) : a.data ≠ b.data :=
  fun hd => h (string_eq_of_data a b hd)

lemma data_u_sep_fn (u f : String) :
    (u ++ "_" ++ f).data = u.data ++ '_' :: f.data := by
  rw [string_data_append, string_data_append, List.append_assoc]
  rfl

lemma path_ne_of_tail_ne {x y : String} (h : x.data ≠ y.data) :
    UPLOAD_FOLDER ++ "/" ++ x ≠ UPLOAD_FOLDER ++ "/" ++ y := by
  intro he
  apply h
  have hd := congrArg String.data he
  rw [string_data_append, string_data_append] at hd
  exact List.append_cancel_left hd

lemma join_under_upload_folder (b : String) (hb : b.data.head? ≠ some '/') :
    os_path_join UPLOAD_FOLDER b = UPLOAD_FOLDER ++ "/" ++ b := by
  unfold os_path_join
  rw [if_neg hb, if_neg (by decide)]

lemma uuid_head_append_ne_slash {u : String} (hu : IsUuidStr u)
    (x : List Char) : (u.data ++ x).head? ≠ some '/' := by
  rcases uuid_data_cons hu with ⟨c, t, hdata, hc⟩
  rw [hdata, List.cons_append, List.head?_cons]
  intro h
  have hc2 : c = '/' := Option.some.inj h
  rw [hc2] at hc
  revert hc
  decide

lemma dirname_upload_folder (tail : List Char) (ht : '/' ∉ tail) :
    os_path_dirname ⟨"/tmp/uploads/".data ++ tail⟩ = UPLOAD_FOLDER := by
  unfold os_path_dirname
  simp only [string_mk_data]
  have h1 : lastIdx '/' ("/tmp/uploads/".data ++ tail) =
      lastIdx '/' "/tmp/uploads/".data :=
    lastIdx_append_of_none '/' _ _ ((lastIdx_eq_none_iff '/' tail).2 ht)
  have h2 : lastIdx '/' "/tmp/uploads/".data = some 12 := by decide
  rw [h1, h2]
  have h3 : ("/tmp/uploads/".data ++ tail).take (12 + 1) =
      "/tmp/uploads/".data := by
    rw [show (12 + 1) = ("/tmp/uploads/".data).length from rfl]
    exact List.take_left _ _
  dsimp only
  rw [h3]
  rw [if_neg (by decide)]
  decide

lemma convert_scadPath_shape (a b : String) (q : ℚ) (e : ConvEnv) :
    (convert_svg_to_stl a b q e).scadPath = none ∨
    (convert_svg_to_stl a b q e).scadPath =
      some (os_path_join (os_path_dirname a)
        ("temp_" ++ e.scadUuid ++ ".scad")) := by
  unfold convert_svg_to_stl
  dsimp only
  repeat' split
  all_goals first
    | (left; rfl)
    | (right; rfl)

lemma upload_accept_eval (req : UploadReq) (env : UploadEnv)
    (h1 : req.hasFilePart = true) (h2 : req.filename ≠ "")
    (h3 : extension_ok req.filename = true) (h4 : env.saveExc = none) :
    (upload_file req env).uploadPath =
      some (os_path_join UPLOAD_FOLDER
        (env.uploadUuid ++ "_" ++ env.sanitize req.filename)) ∧
    (upload_file req env).stlPath =
      some (os_path_join UPLOAD_FOLDER
        (os_path_splitext_fst
          (env.uploadUuid ++ "_" ++ env.sanitize req.filename) ++ ".stl")) ∧
    (upload_file req env).convOutcome =
      some (convert_svg_to_stl
        (os_path_join UPLOAD_FOLDER
          (env.uploadUuid ++ "_" ++ env.sanitize req.filename))
        (os_path_join UPLOAD_FOLDER
          (os_path_splitext_fst
            (env.uploadUuid ++ "_" ++ env.sanitize req.filename) ++ ".stl"))
        5 env.conv) := by
  unfold upload_file
  rw [if_neg (by rw [h1]; simp), if_neg h2, if_neg (by rw [h3]; simp)]
  dsimp only
  simp only [h4]
  split
  · exact ⟨rfl, rfl, rfl⟩
  · exact ⟨rfl, rfl, rfl⟩

lemma head_temp_scad (s : String) :
    (("temp_" ++ s) ++ ".scad").data.head? = some 't' := rfl

lemma temp_tail_data (s : String) :
    ("temp_" ++ s ++ ".scad").data =
      't' :: ("emp_".data ++ (s.data ++ ".scad".data)) := rfl

lemma temp_tail_ne {s1 s2 : String} (hl : s1.data.length = s2.data.length)
    (hne : s1 ≠ s2) :
    ("temp_" ++ s1 ++ ".scad").data ≠ ("temp_" ++ s2 ++ ".scad").data := by
  simp only [string_data_append, List.append_assoc]
  intro h
  exact append_ne_of_ne_of_length_eq hl (data_ne_of_string_ne hne)
    (List.append_cancel_left h)

lemma scad_path_eval {u f : String} (hu : IsUuidStr u)
    (hf : '/' ∉ f.data) (s : String) :
    os_path_join (os_path_dirname (UPLOAD_FOLDER ++ "/" ++ (u ++ "_" ++ f)))
      ("temp_" ++ s ++ ".scad") =
    UPLOAD_FOLDER ++ "/" ++ ("temp_" ++ s ++ ".scad") := by
  have hno : '/' ∉ u.data ++ '_' :: f.data := by
    intro hm
    rcases List.mem_append.1 hm with hm | hm
    · exact uuid_no_slash hu hm
    · rcases List.mem_cons.1 hm with hm | hm
      · exact absurd hm (by decide)
      · exact hf hm
  have harg : (UPLOAD_FOLDER ++ "/" ++ (u ++ "_" ++ f)) =
      ⟨"/tmp/uploads/".data ++ (u.data ++ '_' :: f.data)⟩ := by
    apply string_eq_of_data
    rw [string_data_append, data_u_sep_fn, string_mk_data]
    have h12 : (UPLOAD_FOLDER ++ "/").data = "/tmp/uploads/".data := by decide
    rw [h12]
  have hdir : os_path_dirname (UPLOAD_FOLDER ++ "/" ++ (u ++ "_" ++ f)) =
      UPLOAD_FOLDER := by
    rw [harg]
    exact dirname_upload_folder _ hno
  rw [hdir]
  apply join_under_upload_folder
  rw [head_temp_scad]
  decide

lemma u_sep_f_eq_mk (u f : String) :
    u ++ "_" ++ f = ⟨u.data ++ '_' :: f.data⟩ :=
  string_eq_of_data _ _ (by rw [data_u_sep_fn, string_mk_data])

lemma upload_paths_characterization (req : UploadReq) (env : UploadEnv)
    (hf : req.hasFilePart = true) (hn : req.filename ≠ "")
    (he : extension_ok req.filename = true) (hs : env.saveExc = none)
    (hu : IsUuidStr env.uploadUuid)
    (hslash : '/' ∉ (env.sanitize req.filename).data) :
    ∃ rl : List Char,
      (upload_file req env).uploadPath =
        some (UPLOAD_FOLDER ++ "/" ++
          ⟨env.uploadUuid.data ++ '_' :: (env.sanitize req.filename).data⟩) ∧
      (upload_file req env).stlPath =
        some (UPLOAD_FOLDER ++ "/" ++ ⟨env.uploadUuid.data ++ '_' :: rl⟩) ∧
      ∃ co, (upload_file req env).convOutcome = some co ∧
        (co.scadPath = none ∨
          co.scadPath = some (UPLOAD_FOLDER ++ "/" ++
            ("temp_" ++ env.conv.scadUuid ++ ".scad"))) := by
  obtain ⟨hup, hstl, hco⟩ := upload_accept_eval req env hf hn he hs
  have hbhead : (env.uploadUuid ++ "_" ++ env.sanitize req.filename).data.head?
      ≠ some '/' := by
    rw [data_u_sep_fn]
    exact uuid_head_append_ne_slash hu _
  have hjoin1 : os_path_join UPLOAD_FOLDER
      (env.uploadUuid ++ "_" ++ env.sanitize req.filename) =
      UPLOAD_FOLDER ++ "/" ++
        (env.uploadUuid ++ "_" ++ env.sanitize req.filename) :=
    join_under_upload_folder _ hbhead
  obtain ⟨rl0, hsplit⟩ := splitext_fst_shape env.uploadUuid.data
    (env.sanitize req.filename).data (uuid_no_dot hu)
  have hsplit2 : os_path_splitext_fst
      (env.uploadUuid ++ "_" ++ env.sanitize req.filename) =
      ⟨env.uploadUuid.data ++ '_' :: rl0⟩ := by
    rw [u_sep_f_eq_mk]
    exact hsplit
  have hstlarg : os_path_splitext_fst
      (env.uploadUuid ++ "_" ++ env.sanitize req.filename) ++ ".stl" =
      ⟨env.uploadUuid.data ++ '_' :: (rl0 ++ ".stl".data)⟩ := by
    rw [hsplit2]
    apply string_eq_of_data
    rw [string_data_append, string_mk_data, string_mk_data]
    simp [List.append_assoc]
  have hjoin2 : os_path_join UPLOAD_FOLDER
      (⟨env.uploadUuid.data ++ '_' :: (rl0 ++ ".stl".data)⟩ : String) =
      UPLOAD_FOLDER ++ "/" ++
        (⟨env.uploadUuid.data ++ '_' :: (rl0 ++ ".stl".data)⟩ : String) :=
    join_under_upload_folder _ (uuid_head_append_ne_slash hu _)
  refine ⟨rl0 ++ ".stl".data, ?_, ?_, ?_⟩
  · rw [hup, hjoin1, u_sep_f_eq_mk]
  · rw [hstl, hstlarg, hjoin2]
  · refine ⟨_, hco, ?_⟩
    rcases convert_scadPath_shape
        (os_path_join UPLOAD_FOLDER
          (env.uploadUuid ++ "_" ++ env.sanitize req.filename))
        (os_path_join UPLOAD_FOLDER
          (os_path_splitext_fst
            (env.uploadUuid ++ "_" ++ env.sanitize req.filename) ++ ".stl"))
        5 env.conv with hsh | hsh
    · left; exact hsh
    · right
      rw [hsh, hjoin1, scad_path_eval hu hslash]

/-- C9: every generated path of an accepted request embeds a
freshly drawn identifier — the uploaded document and output paths embed the
request's upload uuid and the descriptor path embeds the request's
descriptor uuid — and for two requests whose drawn identifiers differ, all
generated paths of the one differ from all generated paths of the other,
whatever the (sanitized, separator-free) original filenames are, identical
ones included. -/
theorem claim_C9 (req1 req2 : UploadReq) (env1 env2 : UploadEnv)
    (h1f : req1.hasFilePart = true) (h1n : req1.filename ≠ "")
    (h1e : extension_ok req1.filename = true) (h1s : env1.saveExc = none)
    (h2f : req2.hasFilePart = true) (h2n : req2.filename ≠ "")
    (h2e : extension_ok req2.filename = true) (h2s : env2.saveExc = none)
    (hu1 : IsUuidStr env1.uploadUuid) (hu2 : IsUuidStr env2.uploadUuid)
    (hs1 : IsUuidStr env1.conv.scadUuid) (hs2 : IsUuidStr env2.conv.scadUuid)
    (huu : env1.uploadUuid ≠ env2.uploadUuid)
    (hss : env1.conv.scadUuid ≠ env2.conv.scadUuid)
    (hslash1 : '/' ∉ (env1.sanitize req1.filename).data)
    (hslash2 : '/' ∉ (env2.sanitize req2.filename).data) :
    (upload_file req1 env1).uploadPath =
      some (UPLOAD_FOLDER ++ "/" ++
        (env1.uploadUuid ++ "_" ++ env1.sanitize req1.filename)) ∧
    (∃ r : String, (upload_file req1 env1).stlPath =
      some (UPLOAD_FOLDER ++ "/" ++ (env1.uploadUuid ++ "_" ++ r))) ∧
    (∀ c sp, (upload_file req1 env1).convOutcome = some c →
      c.scadPath = some sp →
      sp = UPLOAD_FOLDER ++ "/" ++
        ("temp_" ++ env1.conv.scadUuid ++ ".scad")) ∧
    (∀ p q, p ∈ generatedPaths (upload_file req1 env1) →
      q ∈ generatedPaths (upload_file req2 env2) → p ≠ q) := by
  obtain ⟨rl1, hA1, hB1, co1, hco1, hsc1⟩ :=
    upload_paths_characterization req1 env1 h1f h1n h1e h1s hu1 hslash1
  obtain ⟨rl2, hA2, hB2, co2, hco2, hsc2⟩ :=
    upload_paths_characterization req2 env2 h2f h2n h2e h2s hu2 hslash2
  have hlen : env1.uploadUuid.data.length = env2.uploadUuid.data.length := by
    rw [hu1.1, hu2.1]
  have hune : env1.uploadUuid.data ≠ env2.uploadUuid.data :=
    data_ne_of_string_ne huu
  refine ⟨?_, ?_, ?_, ?_⟩
  · rw [hA1, u_sep_f_eq_mk]
  · refine ⟨⟨rl1⟩, ?_⟩
    rw [hB1, u_sep_f_eq_mk]
  · intro c sp hc hsp
    rw [hco1] at hc
    have hcc : co1 = c := Option.some.inj hc
    rw [← hcc] at hsp
    rcases hsc1 with h | h
    · rw [h] at hsp
      exact absurd hsp (by simp)
    · rw [h] at hsp
      exact (Option.some.inj hsp).symm
  · intro p q hp hq
    unfold generatedPaths at hp hq
    rw [hA1, hB1, hco1] at hp
    rw [hA2, hB2, hco2] at hq
    simp only [Option.toList_some, Option.some_bind] at hp hq
    have hp2 : p = UPLOAD_FOLDER ++ "/" ++
        ⟨env1.uploadUuid.data ++ '_' :: (env1.sanitize req1.filename).data⟩ ∨
        p = UPLOAD_FOLDER ++ "/" ++ ⟨env1.uploadUuid.data ++ '_' :: rl1⟩ ∨
        p = UPLOAD_FOLDER ++ "/" ++
          ("temp_" ++ env1.conv.scadUuid ++ ".scad") := by
      rcases hsc1 with h | h
      · rw [h] at hp
        rcases (by simpa using hp : _ ∨ _) with h1 | h1
        · exact Or.inl h1
        · exact Or.inr (Or.inl h1)
      · rw [h] at hp
        simpa using hp
    have hq2 : q = UPLOAD_FOLDER ++ "/" ++
        ⟨env2.uploadUuid.data ++ '_' :: (env2.sanitize req2.filename).data⟩ ∨
        q = UPLOAD_FOLDER ++ "/" ++ ⟨env2.uploadUuid.data ++ '_' :: rl2⟩ ∨
        q = UPLOAD_FOLDER ++ "/" ++
          ("temp_" ++ env2.conv.scadUuid ++ ".scad") := by
      rcases hsc2 with h | h
      · rw [h] at hq
        rcases (by simpa using hq : _ ∨ _) with h1 | h1
        · exact Or.inl h1
        · exact Or.inr (Or.inl h1)
      · rw [h] at hq
        simpa using hq
    have huu_gadget : ∀ x y : List Char,
        (⟨env1.uploadUuid.data ++ '_' :: x⟩ : String).data ≠
        (⟨env2.uploadUuid.data ++ '_' :: y⟩ : String).data := by
      intro x y
      rw [string_mk_data, string_mk_data]
      exact append_ne_of_ne_of_length_eq hlen hune
    have hut_gadget1 : ∀ (x : List Char),
        (⟨env1.uploadUuid.data ++ '_' :: x⟩ : String).data ≠
        ("temp_" ++ env2.conv.scadUuid ++ ".scad").data := by
      intro x
      rw [string_mk_data, temp_tail_data]
      exact uuid_append_ne_t_cons hu1 _ _
    have hut_gadget2 : ∀ (x : List Char),
        ("temp_" ++ env1.conv.scadUuid ++ ".scad").data ≠
        (⟨env2.uploadUuid.data ++ '_' :: x⟩ : String).data := by
      intro x
      rw [string_mk_data, temp_tail_data]
      exact (uuid_append_ne_t_cons hu2 _ _).symm
    have hslen : env1.conv.scadUuid.data.length =
        env2.conv.scadUuid.data.length := by
      rw [hs1.1, hs2.1]
    rcases hp2 with hp2 | hp2 | hp2 <;> rcases hq2 with hq2 | hq2 | hq2 <;>
      rw [hp2, hq2] <;> apply path_ne_of_tail_ne
    · exact huu_gadget _ _
    · exact huu_gadget _ _
    · exact hut_gadget1 _
    · exact huu_gadget _ _
    · exact huu_gadget _ _
    · exact hut_gadget1 _
    · exact hut_gadget2 _
    · exact hut_gadget2 _
    · exact temp_tail_ne hslen hss

/-- C9 witness: two concrete requests uploading the same filename
`logo.svg` under distinct drawn identifiers get pairwise-distinct generated
paths. -/
theorem claim_C9_witness :
    (upload_file reqOk envReqA).uploadPath =
      some (UPLOAD_FOLDER ++ "/" ++
        (envReqA.uploadUuid ++ "_" ++ envReqA.sanitize reqOk.filename)) ∧
    (∃ r : String, (upload_file reqOk envReqA).stlPath =
      some (UPLOAD_FOLDER ++ "/" ++ (envReqA.uploadUuid ++ "_" ++ r))) ∧
    (∀ c sp, (upload_file reqOk envReqA).convOutcome = some c →
      c.scadPath = some sp →
      sp = UPLOAD_FOLDER ++ "/" ++
        ("temp_" ++ envReqA.conv.scadUuid ++ ".scad")) ∧
    (∀ p q, p ∈ generatedPaths (upload_file reqOk envReqA) →
      q ∈ generatedPaths (upload_file reqOk envReqB) → p ≠ q) :=
  claim_C9 reqOk reqOk envReqA envReqB
    rfl (by decide) (by decide) rfl
    rfl (by decide) (by decide) rfl
    (by decide) (by decide) (by decide) (by decide)
    (by decide) (by decide) (by decide) (by decide)
